import Mathlib

/-!
Verification development for a tutorial memory allocator.

The repository contains two allocator sources:

* `MyMalloc.cc` — a C++ allocator skeleton.  `Allocator::allocateObject`
  rounds the request up to `(size + sizeof(ObjectHeader) + 7) & ~7`,
  unconditionally obtains that much memory from the OS (`getMemoryFromOS`,
  which increments `_heapSize` and calls `sbrk`), writes the object header
  into the returned memory without checking for an `sbrk` failure, and
  returns the address just past the header.  `freeObject` does nothing.
  `realloc`, `calloc`, `malloc`, `free` are C wrappers that bump call
  counters and delegate.

* `malloc.c` — a first-fit free-list allocator.  Blocks carry a
  `block_meta` header (`size`, `next`, `free`, `magic`) and are linked in
  allocation order, which coincides with address order because `sbrk` hands
  out contiguous memory.  `find_free_block` returns the first free block
  whose size is at least the request; `request_space` appends a fresh block
  after checking the `sbrk` result; `free` merely sets the `free` flag.

Both allocators are modelled below as pure state-passing functions.
Machine `size_t` arithmetic is `Nat` arithmetic modulo `2 ^ 64`
(LP64: `sizeof(ObjectHeader) = 16`, alignment granularity 8).  The heap
source (`sbrk`) is modelled by a boolean `osOk` saying whether the growth
request succeeds; pointers into the heap are block indices, since blocks
are laid out contiguously in allocation order.
-/

namespace MyMalloc

/-- Width of `size_t` arithmetic (64-bit). -/
def W : Nat := 2 ^ 64

/-- Bytes of `sizeof(ObjectHeader)`: `int _flags` (4, padded to 8) plus
`size_t _objectSize` (8) on an LP64 target. -/
def headerSize : Nat := 16

/-- Flag value `ObjFree` from the `enum` in `MyMalloc.cc`. -/
def ObjFree : Nat := 0

/-- Flag value `ObjAllocated` from the `enum` in `MyMalloc.cc`. -/
def ObjAllocated : Nat := 1

/-- A heap object: the `ObjectHeader` (`_flags`, `_objectSize`) followed by
its payload bytes.  `objectSize` stores the rounded total size, header
included, exactly as `allocateObject` writes it.  `data` holds the payload
bytes (the memory past the header); `sbrk` memory is modelled as
zero-initialised, which only matters for bytes no theorem inspects. -/
structure HeapObject where
  flags : Nat
  objectSize : Nat
  data : List Nat
deriving Repr, DecidableEq

/-- The `Allocator` singleton's state: `_heapSize` plus the four call
counters, and the blocks obtained from the OS, in allocation order
(`sbrk` is monotone, so list order is address order). -/
structure AllocState where
  heapSize : Nat
  mallocCalls : Nat
  freeCalls : Nat
  reallocCalls : Nat
  callocCalls : Nat
  blocks : List HeapObject
deriving Repr, DecidableEq

/-- The allocator state at program start. -/
def initState : AllocState := ⟨0, 0, 0, 0, 0, []⟩

/-- `totalSize = (size + sizeof(ObjectHeader) + 7) & ~7` computed in
`size_t`: the sum is taken modulo `2 ^ 64` and the low three bits are
cleared (`x / 8 * 8`). -/
def totalSize (size : Nat) : Nat :=
  ((size + headerSize + 7) % W) / 8 * 8

/-- The value `allocateObject` returns.  It is never the null pointer: on
success it is the address just past the header of a fresh block (here the
block's index), and when `sbrk` fails it is `(char *)(-1) + headerSize`,
a garbage non-null address, because the source has no failure branch. -/
inductive Ptr where
  | valid (idx : Nat)
  | invalid
deriving Repr, DecidableEq

/-- Whether a returned pointer is null.  Both possible results of
`allocateObject` are non-null (a real block address, or `-1 + 16`). -/
def Ptr.isNull : Ptr → Bool
  | _ => false

/-- `Allocator::getMemoryFromOS`: adds `size` to `_heapSize` and calls
`sbrk(size)`.  The increment happens whether or not `sbrk` succeeds.
On success the fresh memory becomes the next block slot. -/
def getMemoryFromOS (osOk : Bool) (size : Nat) (st : AllocState) :
    Option Nat × AllocState :=
  let st' := { st with heapSize := (st.heapSize + size) % W }
  (if osOk then some st.blocks.length else none, st')

/-- `Allocator::allocateObject`: computes `totalSize`, gets memory from the
OS, stores `_objectSize := totalSize` and `_flags := ObjAllocated` in the
header, and returns the pointer past the header — with no check of the
`sbrk` result, so on failure the header store goes through `(void *)(-1)`
and the returned pointer is `Ptr.invalid`, not null. -/
def allocateObject (osOk : Bool) (size : Nat) (st : AllocState) :
    Ptr × AllocState :=
  let t := totalSize size
  match getMemoryFromOS osOk t st with
  | (some idx, st') =>
      (Ptr.valid idx,
        { st' with
          blocks := st'.blocks ++
            [⟨ObjAllocated, t, List.replicate (t - headerSize) 0⟩] })
  | (none, st') => (Ptr.invalid, st')

/-- `Allocator::freeObject`: "Simple allocator does nothing." -/
def freeObject (st : AllocState) (_ptr : Nat) : AllocState := st

/-- `Allocator::objectSize`: reads `_objectSize` from the header before the
pointer and subtracts `sizeof(ObjectHeader)` in `size_t` arithmetic.
A dangling index reads unspecified memory (undefined behaviour in the
source); the model returns the subtraction applied to 0 in that case. -/
def objectSize (st : AllocState) (idx : Nat) : Nat :=
  (((st.blocks[idx]?).map HeapObject.objectSize).getD 0 + W - headerSize) % W

/-- `memcpy(newptr, ptr, n)` between block payloads: the first `n` bytes of
block `dst`'s payload are replaced by the first `n` bytes of block `src`'s
payload.  The destination block only has `data.length` payload bytes;
writes past that extent land outside every block the model tracks (a heap
overflow in the source), so the model keeps the destination's length. -/
def copyBytes (src dst : List Nat) (n : Nat) : List Nat :=
  (src.take n ++ dst.drop n).take dst.length

/-- Apply `memcpy` of `n` bytes from block `src` to block `dst`. -/
def memcpyBlock (st : AllocState) (dst src : Nat) (n : Nat) : AllocState :=
  match st.blocks[dst]?, st.blocks[src]? with
  | some d, some s =>
      { st with blocks := st.blocks.set dst { d with data := copyBytes s.data d.data n } }
  | _, _ => st

/-- `memset(ptr, 0, n)` on a block payload: zero the first `n` payload
bytes.  As with `memcpyBlock`, writes past the block's extent are outside
the tracked heap and the model keeps the block's length. -/
def memsetBlock (st : AllocState) (j : Nat) (n : Nat) : AllocState :=
  match st.blocks[j]? with
  | some o =>
      { st with
        blocks := st.blocks.set j
          { o with
            data := List.replicate (min n o.data.length) 0 ++
              o.data.drop (min n o.data.length) } }
  | none => st

/-- C wrapper `malloc`: bumps `_mallocCalls`, then `allocateObject`. -/
def malloc (osOk : Bool) (size : Nat) (st : AllocState) : Ptr × AllocState :=
  allocateObject osOk size { st with mallocCalls := st.mallocCalls + 1 }

/-- C wrapper `free`: bumps `_freeCalls`; returns immediately on a null
pointer, otherwise calls `freeObject`. -/
def free (ptr : Option Nat) (st : AllocState) : AllocState :=
  let st' := { st with freeCalls := st.freeCalls + 1 }
  match ptr with
  | none => st'
  | some i => freeObject st' i

/-- C wrapper `realloc`: bumps `_reallocCalls`, allocates a new object of
`size`, and when `ptr` is non-null copies
`min(objectSize(ptr), size)` bytes into it and frees the old object.
When the inner allocation came back from a failed `sbrk` the source would
`memcpy` through the garbage pointer; the model stops at the invalid
pointer. -/
def realloc (osOk : Bool) (ptr : Option Nat) (size : Nat) (st : AllocState) :
    Ptr × AllocState :=
  let st0 := { st with reallocCalls := st.reallocCalls + 1 }
  match allocateObject osOk size st0 with
  | (newptr, st1) =>
    match ptr with
    | none => (newptr, st1)
    | some i =>
      let sizeToCopy := objectSize st1 i
      let sizeToCopy := if size < sizeToCopy then size else sizeToCopy
      match newptr with
      | Ptr.valid j => (newptr, freeObject (memcpyBlock st1 j i sizeToCopy) i)
      | Ptr.invalid => (Ptr.invalid, st1)

/-- C wrapper `calloc`: bumps `_callocCalls`, computes
`size = nelem * elsize` in `size_t` (silently truncating on overflow —
there is no overflow check in the source), allocates, and zero-fills
`size` bytes of the result when the pointer is non-null.  An `invalid`
pointer from a failed `sbrk` is also non-null; the source would `memset`
through it, which the model does not track further. -/
def calloc (osOk : Bool) (nelem elsize : Nat) (st : AllocState) :
    Ptr × AllocState :=
  let st0 := { st with callocCalls := st.callocCalls + 1 }
  let size := nelem * elsize % W
  match allocateObject osOk size st0 with
  | (Ptr.valid j, st1) => (Ptr.valid j, memsetBlock st1 j size)
  | (Ptr.invalid, st1) => (Ptr.invalid, st1)

end MyMalloc

namespace CMalloc

/-- A `struct block_meta` header from `malloc.c`: `size` (payload bytes,
an `int`), the `free` flag (an `int`, only ever assigned 0 or 1, modelled
as `Bool`), and the debugging `magic` word.  The `next` pointer is implicit
in the list position: blocks are linked in allocation order, which is
address order because `sbrk` is monotone and `free` never unlinks. -/
structure BlockMeta where
  size : Int
  free : Bool
  magic : Int
deriving Repr, DecidableEq

/-- `find_free_block`: walk the list from `global_base` and return the
first block that is free and at least `size` bytes, as an index (the
`last` out-parameter ends at the list's final node, so an append after the
walk goes at the tail). -/
def find_free_block : List BlockMeta → Int → Option Nat
  | [], _ => none
  | b :: bs, size =>
      if b.free = true ∧ size ≤ b.size then some 0
      else (find_free_block bs size).map (· + 1)

/-- `request_space`: `sbrk(size + META_SIZE)`, checked against
`(void *)-1`; on success the fresh block is initialised with the request
size, `free = 0` and magic `0x12345678`, and (by the caller's `last`
bookkeeping) appended at the tail.  `osOk` models whether `sbrk`
succeeds. -/
def request_space (osOk : Bool) (size : Int) : Option BlockMeta :=
  if osOk then some ⟨size, false, 0x12345678⟩ else none

/-- Marking a found free block allocated: `block->free = 0;
block->magic = 0x77777777;`. -/
def markAllocated (heap : List BlockMeta) (i : Nat) : List BlockMeta :=
  match heap[i]? with
  | some b => heap.set i { b with free := false, magic := 0x77777777 }
  | none => heap

/-- `malloc` from `malloc.c`.  The heap is the `global_base` list
(`[]` models `global_base == NULL`); the result is the block index handed
to the caller (the address past the `block_meta` header), or `none` for
`NULL`.  Rejects `size <= 0`; on the first call requests space and sets
`global_base`; otherwise reuses the first fitting free block or requests
space at the tail. -/
def malloc (osOk : Bool) (size : Int) (heap : List BlockMeta) :
    Option Nat × List BlockMeta :=
  if size ≤ 0 then (none, heap)
  else
    match heap with
    | [] =>
        match request_space osOk size with
        | none => (none, heap)
        | some b => (some 0, [b])
    | _ :: _ =>
        match find_free_block heap size with
        | none =>
            match request_space osOk size with
            | none => (none, heap)
            | some b => (some heap.length, heap ++ [b])
        | some i => (some i, markAllocated heap i)

/-- `free` from `malloc.c`: returns on a null pointer; otherwise resolves
the header before the pointer and sets `free = 1`, `magic = 0x55555555`.
No merging of neighbours is performed (the source marks it `TODO`).
A pointer outside the heap is undefined behaviour and left unmodelled. -/
def free (ptr : Option Nat) (heap : List BlockMeta) : List BlockMeta :=
  match ptr with
  | none => heap
  | some i =>
      match heap[i]? with
      | some b => heap.set i { b with free := true, magic := 0x55555555 }
      | none => heap

/-- Two physically adjacent blocks are both free somewhere in the heap.
List adjacency is physical adjacency: `sbrk` memory is contiguous and
blocks are laid out in allocation order. -/
def hasAdjacentFree : List BlockMeta → Bool
  | b1 :: b2 :: bs => (b1.free && b2.free) || hasAdjacentFree (b2 :: bs)
  | _ => false

end CMalloc

namespace MyMalloc

/-- Payload byte `k` of block `idx`: `none` when the block or the byte does
not exist. -/
def payloadByte (st : AllocState) (idx k : Nat) : Option Nat :=
  (st.blocks[idx]?).bind fun o => o.data[k]?

/-- Unfolding `allocateObject` when the heap source succeeds. -/
theorem allocateObject_true (size : Nat) (st : AllocState) :
    allocateObject true size st =
      (Ptr.valid st.blocks.length,
        { st with
          heapSize := (st.heapSize + totalSize size) % W,
          blocks := st.blocks ++
            [⟨ObjAllocated, totalSize size,
              List.replicate (totalSize size - headerSize) 0⟩] }) := rfl

/-- The `size_t` modulus as a literal. -/
theorem W_eq : W = 18446744073709551616 := by norm_num [W]

/-- Reading inside the copied prefix of a `memcpy` returns the source
byte, provided the copy stays inside both payloads. -/
theorem copyBytes_getElem (src dst : List Nat) (n k : Nat)
    (hk : k < n) (hs : n ≤ src.length) (hd : n ≤ dst.length) :
    (copyBytes src dst n)[k]? = src[k]? := by
  have hlt : k < (src.take n).length := by
    rw [List.length_take]
    exact lt_min hk (lt_of_lt_of_le hk hs)
  unfold copyBytes
  rw [List.getElem?_take, if_pos (lt_of_lt_of_le hk hd),
    List.getElem?_append_left hlt, List.getElem?_take, if_pos hk]

/-- When a request does not overflow `size_t`, `totalSize` is the real
8-byte round-up of `size + headerSize`, which is in particular at least
`size + headerSize` and below the modulus. -/
theorem totalSize_no_overflow (size : Nat) (h : size + headerSize + 7 < W) :
    totalSize size = (size + headerSize + 7) / 8 * 8 ∧
    size + headerSize ≤ totalSize size ∧ totalSize size < W := by
  have h23 : size + headerSize + 7 = size + 23 := by
    simp [headerSize]
  rw [h23, W_eq] at h
  unfold totalSize
  rw [h23, W_eq, Nat.mod_eq_of_lt h]
  simp only [headerSize]
  exact ⟨trivial, by omega, by omega⟩

/-- Reading `objectSize` of a block whose stored size is in the normal
range (at least one header, below the modulus) subtracts the header
size. -/
theorem objectSize_eq (st : AllocState) (idx : Nat) (o : HeapObject)
    (h : st.blocks[idx]? = some o) (h16 : headerSize ≤ o.objectSize)
    (hW : o.objectSize < W) :
    objectSize st idx = o.objectSize - headerSize := by
  unfold objectSize
  rw [h]
  rw [W_eq] at hW ⊢
  simp only [Option.map_some', Option.getD_some, headerSize] at *
  omega

end MyMalloc

/-- Claim C1: the spec says a failure of the heap-growth primitive is
surfaced as a null result from allocate, never a crash or a dereference of
the failure value.  The code of `Allocator::allocateObject` has no check of
the `sbrk` result: at the concrete call `allocateObject(8)` with a failing
heap source it stores the header through the failure value, returns the
non-null pointer `(char *)(-1) + headerSize`, and even leaves `_heapSize`
incremented by the rounded size 24. -/
theorem C1_allocateObject_ignores_sbrk_failure :
    (MyMalloc.allocateObject false 8 MyMalloc.initState).1 = MyMalloc.Ptr.invalid ∧
    (MyMalloc.allocateObject false 8 MyMalloc.initState).1.isNull = false ∧
    (MyMalloc.allocateObject false 8 MyMalloc.initState).2.heapSize = 24 := by
  decide

/-- Claim C2: the spec says that after every release no two physically
adjacent blocks are both Free, because release coalesces.  In `malloc.c`,
`free` only sets the `free` flag (merging is an explicit TODO): after
`malloc(8)`, `malloc(8)` and freeing both blocks, the two physically
adjacent blocks are both free. -/
theorem C2_free_leaves_adjacent_free_blocks :
    (CMalloc.malloc true 8 []).1 = some 0 ∧
    (CMalloc.malloc true 8 (CMalloc.malloc true 8 []).2).1 = some 1 ∧
    CMalloc.hasAdjacentFree
      (CMalloc.free (some 1)
        (CMalloc.free (some 0)
          (CMalloc.malloc true 8 (CMalloc.malloc true 8 []).2).2)) = true := by
  decide

/-- Claim C3: the spec says allocate searches the free list first-fit and
consults the heap source only when no free block fits.
`Allocator::allocateObject` performs no search at all and gets memory from
the OS on every call (its own comment says it should not): after
`malloc(8)`, `free(p)`, `malloc(8)` the heap has grown twice
(`_heapSize = 48`) and holds two blocks. -/
theorem C3_allocate_always_consults_heap_source :
    (MyMalloc.malloc true 8
        (MyMalloc.free (some 0)
          (MyMalloc.malloc true 8 MyMalloc.initState).2)).2.heapSize = 48 ∧
    (MyMalloc.malloc true 8
        (MyMalloc.free (some 0)
          (MyMalloc.malloc true 8 MyMalloc.initState).2)).2.blocks.length = 2 := by
  decide

/-- Claim C4: the spec says that after releasing a block of size S, an
allocation of any size at most S succeeds without growing the heap.  In
`MyMalloc.cc`, `freeObject` does nothing and `allocateObject` always grows:
after `malloc(24)`, `free(p)`, `malloc(8)` the new allocation is a fresh
second block and the heap has grown from 40 to 64 bytes instead of reusing
the released block. -/
theorem C4_freed_block_not_reused :
    (MyMalloc.malloc true 8
        (MyMalloc.free (some 0)
          (MyMalloc.malloc true 24 MyMalloc.initState).2)).1 =
      MyMalloc.Ptr.valid 1 ∧
    (MyMalloc.malloc true 8
        (MyMalloc.free (some 0)
          (MyMalloc.malloc true 24 MyMalloc.initState).2)).2.heapSize = 64 := by
  decide

/-- Claim C5: the spec says zero-allocate must detect overflow of
`count * elementSize` and fail.  `calloc` computes the product in `size_t`
with no check: at `calloc(2^32, 2^32)` the product truncates to 0, and the
call allocates a 16-byte header-only block and returns it non-null instead
of failing. -/
theorem C5_calloc_overflow_truncates :
    (2 ^ 32 * 2 ^ 32) % MyMalloc.W = 0 ∧
    (MyMalloc.calloc true (2 ^ 32) (2 ^ 32) MyMalloc.initState).1 =
      MyMalloc.Ptr.valid 0 ∧
    ((MyMalloc.calloc true (2 ^ 32) (2 ^ 32) MyMalloc.initState).2.blocks[0]?).map
        MyMalloc.HeapObject.objectSize = some 16 := by
  decide

/-- Claim C10: in the free-list allocator `malloc.c`, a request of size at
most 0 returns NULL with the block list untouched and no memory requested
from the OS (the result is `(none, heap)` for every heap and every state
of the heap source). -/
theorem C10_malloc_rejects_nonpositive (osOk : Bool) (size : Int)
    (heap : List CMalloc.BlockMeta) (h : size ≤ 0) :
    CMalloc.malloc osOk size heap = (none, heap) := by
  unfold CMalloc.malloc
  rw [if_pos h]

/-- Concrete instance of `C10_malloc_rejects_nonpositive` at size `-3` on a
one-block heap with a failing heap source. -/
theorem C10_malloc_rejects_nonpositive_witness :
    ((-3 : Int) ≤ 0) ∧
    CMalloc.malloc false (-3) [⟨8, true, 0x55555555⟩] =
      (none, [⟨8, true, 0x55555555⟩]) :=
  ⟨by decide, C10_malloc_rejects_nonpositive false (-3) [⟨8, true, 0x55555555⟩] (by decide)⟩

/-- Claim C7 counterexample: the claim says `query_size(allocate(s))`
equals `align8(s + headerSize) - headerSize` and is never less than `s`,
for every `s` for which allocate succeeds.  At `s = 2^64 - 1` the `size_t`
sum `s + headerSize + 7` wraps: allocate succeeds (it returns a pointer to
a 16-byte header-only block), and `query_size` of the result is `0`, far
less than the requested size. -/
theorem C7_counterexample_size_roundtrip_wraps :
    (MyMalloc.allocateObject true (2 ^ 64 - 1) MyMalloc.initState).1 =
      MyMalloc.Ptr.valid 0 ∧
    MyMalloc.objectSize
      (MyMalloc.allocateObject true (2 ^ 64 - 1) MyMalloc.initState).2 0 = 0 ∧
    ¬ (2 ^ 64 - 1 ≤
        MyMalloc.objectSize
          (MyMalloc.allocateObject true (2 ^ 64 - 1) MyMalloc.initState).2 0) := by
  decide

/-- Claim C7 (amended): for every size `s` whose rounded request does not
overflow `size_t` (`s + headerSize + 7 < 2^64`), a successful
`allocateObject(s)` returns the next block pointer and `objectSize` of the
result is exactly `align8(s + headerSize) - headerSize`, which is at least
`s`. -/
theorem C7_size_roundtrip_no_overflow (st : MyMalloc.AllocState) (s : Nat)
    (h : s + MyMalloc.headerSize + 7 < MyMalloc.W) :
    (MyMalloc.allocateObject true s st).1 = MyMalloc.Ptr.valid st.blocks.length ∧
    MyMalloc.objectSize (MyMalloc.allocateObject true s st).2 st.blocks.length =
      (s + MyMalloc.headerSize + 7) / 8 * 8 - MyMalloc.headerSize ∧
    s ≤ MyMalloc.objectSize (MyMalloc.allocateObject true s st).2 st.blocks.length := by
  obtain ⟨ht, hge, hlt⟩ := MyMalloc.totalSize_no_overflow s h
  have hg : (MyMalloc.allocateObject true s st).2.blocks[st.blocks.length]? =
      some ⟨MyMalloc.ObjAllocated, MyMalloc.totalSize s,
        List.replicate (MyMalloc.totalSize s - MyMalloc.headerSize) 0⟩ := by
    rw [MyMalloc.allocateObject_true]
    exact List.getElem?_concat_length _ _
  have hobj := MyMalloc.objectSize_eq _ _ _ hg
    (le_trans (Nat.le_add_left _ _) hge) hlt
  simp only at hobj
  refine ⟨by rw [MyMalloc.allocateObject_true], ?_, ?_⟩
  · rw [hobj, ht]
  · rw [hobj]
    omega

/-- Concrete instance of `C7_size_roundtrip_no_overflow` at `s = 40` on
the initial state. -/
theorem C7_size_roundtrip_no_overflow_witness :
    (40 + MyMalloc.headerSize + 7 < MyMalloc.W) ∧
    ((MyMalloc.allocateObject true 40 MyMalloc.initState).1 =
        MyMalloc.Ptr.valid MyMalloc.initState.blocks.length ∧
      MyMalloc.objectSize (MyMalloc.allocateObject true 40 MyMalloc.initState).2
          MyMalloc.initState.blocks.length =
        (40 + MyMalloc.headerSize + 7) / 8 * 8 - MyMalloc.headerSize ∧
      40 ≤ MyMalloc.objectSize (MyMalloc.allocateObject true 40 MyMalloc.initState).2
          MyMalloc.initState.blocks.length) :=
  ⟨by decide, C7_size_roundtrip_no_overflow MyMalloc.initState 40 (by decide)⟩

namespace MyMalloc

/-- Unfolding `memcpyBlock` when both block indices resolve. -/
theorem memcpyBlock_eq (st : AllocState) (dst src : Nat) (n : Nat)
    (d s : HeapObject) (hd : st.blocks[dst]? = some d)
    (hs : st.blocks[src]? = some s) :
    memcpyBlock st dst src n =
      { st with
        blocks := st.blocks.set dst { d with data := copyBytes s.data d.data n } } := by
  unfold memcpyBlock
  rw [hd, hs]

/-- Unfolding `realloc` on a non-null pointer when the heap source
succeeds: the new block is allocated, `min(objectSize(ptr), size)` bytes
are copied into it, and the old object is passed to `freeObject`. -/
theorem realloc_some_true (ptr size : Nat) (st : AllocState) :
    realloc true (some ptr) size st =
      (Ptr.valid st.blocks.length,
        freeObject
          (memcpyBlock
            (allocateObject true size { st with reallocCalls := st.reallocCalls + 1 }).2
            st.blocks.length ptr
            (if size <
                objectSize
                  (allocateObject true size
                    { st with reallocCalls := st.reallocCalls + 1 }).2 ptr
             then size
             else
              objectSize
                (allocateObject true size
                  { st with reallocCalls := st.reallocCalls + 1 }).2 ptr))
          ptr) := rfl

/-- A zero-length `memcpy` leaves the destination payload unchanged. -/
theorem copyBytes_zero (src dst : List Nat) : copyBytes src dst 0 = dst := by
  simp [copyBytes]

end MyMalloc

/-- Claim C8 counterexample: the claim says `reallocate(p, 0)` behaves as
`release(p)`, possibly returning null, with no new allocation surviving
the call.  On a heap with one live block, `realloc(p, 0)` returns the
non-null pointer of a freshly allocated second block which survives the
call still marked allocated — and the old block is not even marked free
(`freeObject` does nothing). -/
theorem C8_counterexample_realloc_zero_allocates :
    (MyMalloc.realloc true (some 0) 0
        ⟨24, 1, 0, 0, 0, [⟨MyMalloc.ObjAllocated, 24, [0, 0, 0, 0, 0, 0, 0, 0]⟩]⟩).1 =
      MyMalloc.Ptr.valid 1 ∧
    (MyMalloc.realloc true (some 0) 0
        ⟨24, 1, 0, 0, 0, [⟨MyMalloc.ObjAllocated, 24, [0, 0, 0, 0, 0, 0, 0, 0]⟩]⟩).2.blocks.length = 2 ∧
    ((MyMalloc.realloc true (some 0) 0
        ⟨24, 1, 0, 0, 0, [⟨MyMalloc.ObjAllocated, 24, [0, 0, 0, 0, 0, 0, 0, 0]⟩]⟩).2.blocks[1]?).map
      MyMalloc.HeapObject.flags = some MyMalloc.ObjAllocated ∧
    ((MyMalloc.realloc true (some 0) 0
        ⟨24, 1, 0, 0, 0, [⟨MyMalloc.ObjAllocated, 24, [0, 0, 0, 0, 0, 0, 0, 0]⟩]⟩).2.blocks[0]?).map
      MyMalloc.HeapObject.flags = some MyMalloc.ObjAllocated := by
  decide

/-- Claim C8 (amended): for every live block index `i`, `realloc(p, 0)`
does not behave as `release(p)`: it allocates a fresh header-only block
(stored size exactly one header, empty payload), returns its non-null
pointer, the heap gains one block, and the old block's header is left
unchanged (the release routine it calls is a no-op). -/
theorem C8_realloc_zero_frees_and_allocates (st : MyMalloc.AllocState) (i : Nat)
    (h : i < st.blocks.length) :
    (MyMalloc.realloc true (some i) 0 st).1 = MyMalloc.Ptr.valid st.blocks.length ∧
    (MyMalloc.realloc true (some i) 0 st).1.isNull = false ∧
    (MyMalloc.realloc true (some i) 0 st).2.blocks.length = st.blocks.length + 1 ∧
    (MyMalloc.realloc true (some i) 0 st).2.blocks[st.blocks.length]? =
      some ⟨MyMalloc.ObjAllocated, MyMalloc.headerSize, []⟩ ∧
    (MyMalloc.realloc true (some i) 0 st).2.blocks[i]? = st.blocks[i]? := by
  have ht0 : MyMalloc.totalSize 0 = 16 := by decide
  have hbi : st.blocks[i]? = some st.blocks[i] := List.getElem?_eq_getElem h
  have hc : ∀ x : Nat, (if 0 < x then (0 : Nat) else x) = 0 := by
    intro x; split <;> omega
  rw [MyMalloc.realloc_some_true, MyMalloc.allocateObject_true]
  simp only [MyMalloc.freeObject]
  rw [hc]
  rw [MyMalloc.memcpyBlock_eq _ _ _ 0
      ⟨MyMalloc.ObjAllocated, MyMalloc.totalSize 0,
        List.replicate (MyMalloc.totalSize 0 - MyMalloc.headerSize) 0⟩
      st.blocks[i] ?hd ?hs]
  case hd =>
    exact List.getElem?_concat_length _ _
  case hs =>
    rw [List.getElem?_append_left h]
    exact hbi
  rw [MyMalloc.copyBytes_zero]
  refine ⟨trivial, rfl, ?_, ?_, ?_⟩
  · simp [List.length_set, List.length_append]
  · rw [List.getElem?_set_self (by simp)]
    simp [ht0, MyMalloc.headerSize]
  · rw [List.getElem?_set]
    rw [if_neg h.ne']
    exact List.getElem?_append_left h

/-- Concrete instance of `C8_realloc_zero_frees_and_allocates` on a heap
with one live 24-byte block. -/
theorem C8_realloc_zero_frees_and_allocates_witness :
    (0 < (⟨40, 2, 0, 0, 0, [⟨MyMalloc.ObjAllocated, 40, [5, 5, 5, 5, 5, 5, 5, 5,
        5, 5, 5, 5, 5, 5, 5, 5, 5, 5, 5, 5, 5, 5, 5, 5]⟩]⟩ :
          MyMalloc.AllocState).blocks.length) ∧
    ((MyMalloc.realloc true (some 0) 0
        (⟨40, 2, 0, 0, 0, [⟨MyMalloc.ObjAllocated, 40, [5, 5, 5, 5, 5, 5, 5, 5,
          5, 5, 5, 5, 5, 5, 5, 5, 5, 5, 5, 5, 5, 5, 5, 5]⟩]⟩ :
            MyMalloc.AllocState)).1 =
      MyMalloc.Ptr.valid (⟨40, 2, 0, 0, 0, [⟨MyMalloc.ObjAllocated, 40, [5, 5, 5, 5, 5, 5, 5, 5,
          5, 5, 5, 5, 5, 5, 5, 5, 5, 5, 5, 5, 5, 5, 5, 5]⟩]⟩ :
            MyMalloc.AllocState).blocks.length ∧
    (MyMalloc.realloc true (some 0) 0
        (⟨40, 2, 0, 0, 0, [⟨MyMalloc.ObjAllocated, 40, [5, 5, 5, 5, 5, 5, 5, 5,
          5, 5, 5, 5, 5, 5, 5, 5, 5, 5, 5, 5, 5, 5, 5, 5]⟩]⟩ :
            MyMalloc.AllocState)).1.isNull = false ∧
    (MyMalloc.realloc true (some 0) 0
        (⟨40, 2, 0, 0, 0, [⟨MyMalloc.ObjAllocated, 40, [5, 5, 5, 5, 5, 5, 5, 5,
          5, 5, 5, 5, 5, 5, 5, 5, 5, 5, 5, 5, 5, 5, 5, 5]⟩]⟩ :
            MyMalloc.AllocState)).2.blocks.length =
      (⟨40, 2, 0, 0, 0, [⟨MyMalloc.ObjAllocated, 40, [5, 5, 5, 5, 5, 5, 5, 5,
          5, 5, 5, 5, 5, 5, 5, 5, 5, 5, 5, 5, 5, 5, 5, 5]⟩]⟩ :
            MyMalloc.AllocState).blocks.length + 1 ∧
    (MyMalloc.realloc true (some 0) 0
        (⟨40, 2, 0, 0, 0, [⟨MyMalloc.ObjAllocated, 40, [5, 5, 5, 5, 5, 5, 5, 5,
          5, 5, 5, 5, 5, 5, 5, 5, 5, 5, 5, 5, 5, 5, 5, 5]⟩]⟩ :
            MyMalloc.AllocState)).2.blocks[(⟨40, 2, 0, 0, 0,
        [⟨MyMalloc.ObjAllocated, 40, [5, 5, 5, 5, 5, 5, 5, 5,
          5, 5, 5, 5, 5, 5, 5, 5, 5, 5, 5, 5, 5, 5, 5, 5]⟩]⟩ :
            MyMalloc.AllocState).blocks.length]? =
      some ⟨MyMalloc.ObjAllocated, MyMalloc.headerSize, []⟩ ∧
    (MyMalloc.realloc true (some 0) 0
        (⟨40, 2, 0, 0, 0, [⟨MyMalloc.ObjAllocated, 40, [5, 5, 5, 5, 5, 5, 5, 5,
          5, 5, 5, 5, 5, 5, 5, 5, 5, 5, 5, 5, 5, 5, 5, 5]⟩]⟩ :
            MyMalloc.AllocState)).2.blocks[0]? =
      (⟨40, 2, 0, 0, 0, [⟨MyMalloc.ObjAllocated, 40, [5, 5, 5, 5, 5, 5, 5, 5,
          5, 5, 5, 5, 5, 5, 5, 5, 5, 5, 5, 5, 5, 5, 5, 5]⟩]⟩ :
            MyMalloc.AllocState).blocks[0]?) :=
  ⟨by decide, C8_realloc_zero_frees_and_allocates _ 0 (by decide)⟩

/-- Claim C6 counterexample: the claim says that for every live allocation
`p` with payload size `m` and every `n`, after `reallocate(p, n)` succeeds
the first `min(m, n)` payload bytes of the returned block equal those of
`p`.  At `n = 2^64 - 1` the rounded request wraps in `size_t`: the new
block is allocated with a zero-capacity payload although
`min(m, n) = 16 > 0`, so its byte 0 does not exist while the old block's
byte 0 is 1 (the 16 copied bytes are written out of bounds). -/
theorem C6_counterexample_realloc_overflow :
    (MyMalloc.realloc true (some 0) (MyMalloc.W - 1)
        ⟨48, 1, 0, 0, 0, [⟨MyMalloc.ObjAllocated, 32,
          [1, 2, 3, 4, 5, 6, 7, 8, 9, 10, 11, 12, 13, 14, 15, 16]⟩]⟩).1 =
      MyMalloc.Ptr.valid 1 ∧
    0 < min
      (MyMalloc.objectSize
        ⟨48, 1, 0, 0, 0, [⟨MyMalloc.ObjAllocated, 32,
          [1, 2, 3, 4, 5, 6, 7, 8, 9, 10, 11, 12, 13, 14, 15, 16]⟩]⟩ 0)
      (MyMalloc.W - 1) ∧
    MyMalloc.payloadByte
      (MyMalloc.realloc true (some 0) (MyMalloc.W - 1)
        ⟨48, 1, 0, 0, 0, [⟨MyMalloc.ObjAllocated, 32,
          [1, 2, 3, 4, 5, 6, 7, 8, 9, 10, 11, 12, 13, 14, 15, 16]⟩]⟩).2 1 0 = none ∧
    MyMalloc.payloadByte
      ⟨48, 1, 0, 0, 0, [⟨MyMalloc.ObjAllocated, 32,
        [1, 2, 3, 4, 5, 6, 7, 8, 9, 10, 11, 12, 13, 14, 15, 16]⟩]⟩ 0 0 = some 1 := by
  decide

/-- Claim C6 (amended): for every live block `i` with a well-formed header
(stored size is payload length plus one header, below the `size_t`
modulus) and every request `n` whose rounded size does not wrap
(`n + headerSize + 7 < 2^64`), after `realloc(p, n)` the first
`min(objectSize(p), n)` payload bytes of the returned block equal the
payload bytes of `p` before the call. -/
theorem C6_realloc_preserves_prefix (st : MyMalloc.AllocState) (i : Nat)
    (b : MyMalloc.HeapObject) (n k : Nat)
    (hb : st.blocks[i]? = some b)
    (hwf : b.objectSize = b.data.length + MyMalloc.headerSize)
    (hlt : b.objectSize < MyMalloc.W)
    (hn : n + MyMalloc.headerSize + 7 < MyMalloc.W)
    (hk : k < min (MyMalloc.objectSize st i) n) :
    MyMalloc.payloadByte (MyMalloc.realloc true (some i) n st).2
        st.blocks.length k =
      MyMalloc.payloadByte st i k := by
  obtain ⟨ht, hge, hltW⟩ := MyMalloc.totalSize_no_overflow n hn
  have hilen : i < st.blocks.length := by
    rcases List.getElem?_eq_some_iff.mp hb with ⟨h1, -⟩
    exact h1
  have h16 : MyMalloc.headerSize ≤ b.objectSize := by
    rw [hwf]
    exact Nat.le_add_left _ _
  have hoszst : MyMalloc.objectSize st i = b.data.length := by
    rw [MyMalloc.objectSize_eq st i b hb h16 hlt, hwf]
    omega
  rw [hoszst] at hk
  rw [MyMalloc.realloc_some_true, MyMalloc.allocateObject_true]
  simp only [MyMalloc.freeObject]
  rw [MyMalloc.objectSize_eq _ i b ?hb1 h16 hlt]
  case hb1 => exact (List.getElem?_append_left hilen).trans hb
  rw [MyMalloc.memcpyBlock_eq _ _ _ _
      ⟨MyMalloc.ObjAllocated, MyMalloc.totalSize n,
        List.replicate (MyMalloc.totalSize n - MyMalloc.headerSize) 0⟩
      b ?hd ?hs]
  case hd => exact List.getElem?_concat_length _ _
  case hs => exact (List.getElem?_append_left hilen).trans hb
  simp only [MyMalloc.payloadByte]
  rw [List.getElem?_set_self (by simp)]
  rw [hb]
  simp only [Option.some_bind]
  have hoszd : b.objectSize - MyMalloc.headerSize = b.data.length := by omega
  rw [hoszd]
  have hkc : k < (if n < b.data.length then n else b.data.length) := by
    split <;> omega
  have hcs : (if n < b.data.length then n else b.data.length) ≤ b.data.length := by
    split <;> omega
  have hcd : (if n < b.data.length then n else b.data.length) ≤
      (List.replicate (MyMalloc.totalSize n - MyMalloc.headerSize) 0).length := by
    rw [List.length_replicate]
    split <;> omega
  rw [MyMalloc.copyBytes_getElem _ _ _ _ hkc hcs hcd]

/-- Concrete instance of `C6_realloc_preserves_prefix`: one live block of
stored size 32 (payload 16 bytes), reallocated to 8 bytes; payload byte 3
is preserved. -/
theorem C6_realloc_preserves_prefix_witness :
    ((⟨48, 1, 0, 0, 0, [⟨MyMalloc.ObjAllocated, 32,
        [9, 8, 7, 6, 5, 4, 3, 2, 1, 0, 11, 12, 13, 14, 15, 10]⟩]⟩ :
          MyMalloc.AllocState).blocks[0]? =
        some ⟨MyMalloc.ObjAllocated, 32,
          [9, 8, 7, 6, 5, 4, 3, 2, 1, 0, 11, 12, 13, 14, 15, 10]⟩ ∧
      (⟨MyMalloc.ObjAllocated, 32,
        [9, 8, 7, 6, 5, 4, 3, 2, 1, 0, 11, 12, 13, 14, 15, 10]⟩ :
          MyMalloc.HeapObject).objectSize =
        (⟨MyMalloc.ObjAllocated, 32,
          [9, 8, 7, 6, 5, 4, 3, 2, 1, 0, 11, 12, 13, 14, 15, 10]⟩ :
            MyMalloc.HeapObject).data.length + MyMalloc.headerSize ∧
      (⟨MyMalloc.ObjAllocated, 32,
        [9, 8, 7, 6, 5, 4, 3, 2, 1, 0, 11, 12, 13, 14, 15, 10]⟩ :
          MyMalloc.HeapObject).objectSize < MyMalloc.W ∧
      8 + MyMalloc.headerSize + 7 < MyMalloc.W ∧
      3 < min
        (MyMalloc.objectSize
          ⟨48, 1, 0, 0, 0, [⟨MyMalloc.ObjAllocated, 32,
            [9, 8, 7, 6, 5, 4, 3, 2, 1, 0, 11, 12, 13, 14, 15, 10]⟩]⟩ 0) 8) ∧
    MyMalloc.payloadByte
      (MyMalloc.realloc true (some 0) 8
        ⟨48, 1, 0, 0, 0, [⟨MyMalloc.ObjAllocated, 32,
          [9, 8, 7, 6, 5, 4, 3, 2, 1, 0, 11, 12, 13, 14, 15, 10]⟩]⟩).2
      (⟨48, 1, 0, 0, 0, [⟨MyMalloc.ObjAllocated, 32,
        [9, 8, 7, 6, 5, 4, 3, 2, 1, 0, 11, 12, 13, 14, 15, 10]⟩]⟩ :
          MyMalloc.AllocState).blocks.length 3 =
      MyMalloc.payloadByte
        ⟨48, 1, 0, 0, 0, [⟨MyMalloc.ObjAllocated, 32,
          [9, 8, 7, 6, 5, 4, 3, 2, 1, 0, 11, 12, 13, 14, 15, 10]⟩]⟩ 0 3 :=
  ⟨⟨by decide, by decide, by decide, by decide, by decide⟩,
    C6_realloc_preserves_prefix
      ⟨48, 1, 0, 0, 0, [⟨MyMalloc.ObjAllocated, 32,
        [9, 8, 7, 6, 5, 4, 3, 2, 1, 0, 11, 12, 13, 14, 15, 10]⟩]⟩ 0
      ⟨MyMalloc.ObjAllocated, 32,
        [9, 8, 7, 6, 5, 4, 3, 2, 1, 0, 11, 12, 13, 14, 15, 10]⟩ 8 3
      (by decide) (by decide) (by decide) (by decide) (by decide)⟩
